import Mathlib

/-!
Verification development for the Namespace Diagnostic Engine of the
OpenZeppelin Solidity namespacing extension.

The embedding below is a shallow model of the two source files

  * `server/src/diagnostics.ts` — the diagnostic engine
    (`validateNamespaces`, `inferUpgradeable`,
    `validateNamespaceableContract`, `validateNamespaceableVariables`,
    `validateNamespaceCommentAndHash`, and the struct namespace
    validator `validateNamespaceStructAnnot` below, whose source name
    carries the suffix used for NatSpec tags),
  * `server/src/helpers/slang.ts` — `getHighestSupportedPragmaVersion`.

Syntax-tree plumbing (slang cursors, regex engines, the language-server
transport) lies outside the engine per the specification and is modelled
at its call boundary: each contract/struct/state-variable carries the
data the engine reads off the tree (identifier texts, regex capture
results, trivia lookups, trimmed ranges as opaque `Nat` identifiers).
The collaborator functions `calculateERC7201StorageLocation` (keccak
based, from the module `namespace.ts` which is not part of the analysed
sources) and the expected-id derivation are passed as parameters, so
every theorem holds for all of their implementations unless a concrete
one is needed for a counterexample.
-/

namespace OZ

/-- Severity levels of the language-server `DiagnosticSeverity` enum used
by the engine (Hint, Information, Warning, Error). -/
inductive Severity
  | hint
  | information
  | warning
  | error
deriving DecidableEq, Repr

/-- Diagnostic code constants, `diagnostics.ts` lines 18-26. -/
def VARIABLE_CAN_BE_NAMESPACED : String := "VariableCanBeNamespaced"

/-- Diagnostic code constant, `diagnostics.ts` line 19. -/
def CONTRACT_CAN_BE_NAMESPACED : String := "ContractCanBeNamespaced"

/-- Diagnostic code constant, `diagnostics.ts` line 20. -/
def NAMESPACE_ID_MISMATCH : String := "NamespaceIdMismatch"

/-- Diagnostic code constant, `diagnostics.ts` line 21. -/
def NAMESPACE_ID_MISMATCH_HASH_COMMENT : String := "NamespaceIdMismatchHashComment"

/-- Diagnostic code constant, `diagnostics.ts` line 22. -/
def NAMESPACE_HASH_MISMATCH : String := "NamespaceHashMismatch"

/-- Diagnostic code constant, `diagnostics.ts` line 23. -/
def NAMESPACE_STANDALONE_HASH_MISMATCH : String := "NamespaceStandaloneHashMismatch"

/-- Diagnostic code constant, `diagnostics.ts` line 24. -/
def VARIABLE_HAS_INITIAL_VALUE : String := "VariableHasInitialValue"

/-- Diagnostic code constant, `diagnostics.ts` line 25. -/
def MULTIPLE_NAMESPACES : String := "MultipleNamespaces"

/-- Diagnostic code constant, `diagnostics.ts` line 26. -/
def DUPLICATE_NAMESPACE_ID : String := "DuplicateNamespaceId"

/-- Quick-fix getter payload (`PublicGetter` from `namespace.ts`, as used
at `diagnostics.ts` lines 149-151): the type text of a formerly public
variable. -/
structure PublicGetter where
  typeName : String
deriving DecidableEq, Repr

/-- One namespaceable variable collected per contract
(`server.ts` shape, populated at `diagnostics.ts` line 185). -/
structure NamespaceableVariable where
  content : String
  name : String
  range : Nat
  publicGetter : Option PublicGetter
deriving DecidableEq, Repr

/-- Per-contract record handed to the contract-level diagnostic
(`diagnostics.ts` lines 48-51). The source field `variables` is renamed
`vars` because `variables` is a reserved word in Lean. -/
structure NamespaceableContract where
  name : String
  vars : List NamespaceableVariable
deriving DecidableEq, Repr

/-- Structured quick-fix payload attached to a diagnostic: either a text
replacement or the collected contract record. -/
inductive Payload
  | replacement (text : String)
  | contractData (c : NamespaceableContract)
deriving DecidableEq, Repr

/-- One diagnostic record as assembled by `addDiagnostic` calls: trimmed
range (opaque identifier), primary message, secondary explanation,
severity, stable code, optional quick-fix payload. -/
structure Diagnostic where
  range : Nat
  message : String
  explanation : String
  severity : Severity
  code : String
  payload : Option Payload
deriving DecidableEq, Repr

/-- Attribute kinds of a state variable the classifier inspects
(`diagnostics.ts` lines 139-154): the `immutable`, `constant` and
`public` keyword terminals are distinguished; every other attribute is
collapsed to one constructor since the code only branches on these
three kinds. -/
inductive AttrKind
  | immutableKeyword
  | constantKeyword
  | publicKeyword
  | otherAttribute
deriving DecidableEq, Repr

/-- Result of re-parsing a state variable in isolation
(`StateVariableDefinition` AST fields read at `diagnostics.ts`
lines 133-158): attribute list, type text, name, optional initializer. -/
structure StateVarModel where
  attributes : List AttrKind
  typeNameText : String
  name : String
  value? : Option String
deriving DecidableEq, Repr

/-- Capture of the ERC-7201 formula regex (`diagnostics.ts` line 199) on
the last plain comment preceding a state variable: the captured
namespace id and the comment range. -/
structure FormulaCommentMatch where
  capturedId : String
  commentRange : Nat
deriving DecidableEq, Repr

/-- Everything the engine reads off one state-variable definition:
the formula-comment lookup result (`getLastPrecedingTriviaWithKinds`
with the two plain-comment kinds, fed through the formula regex — none
when no such comment precedes it or the regex does not match), the name
from the document tree, the initializer-expression text found by the
cursor walk at lines 228-232 with its trimmed range, the trimmed range
and trimmed text of the declaration, and the isolated re-parse together
with the validity flag of that parse (which `diagnostics.ts` lines
131-133 obtain but never read). -/
structure StateVarInput where
  formulaComment? : Option FormulaCommentMatch
  name : String
  valueExprText? : Option String
  valueExprRange : Nat
  trimmedRange : Nat
  variableText : String
  reparseValid : Bool
  reparsed : StateVarModel
deriving DecidableEq, Repr

/-- Everything the engine reads off one struct definition
(`diagnostics.ts` lines 284-322): the capture of the
storage-location tag regex on its preceding NatSpec comment (none when
no NatSpec precedes it or the regex does not match) and the NatSpec
range. -/
structure StructInput where
  matchedId? : Option String
  natSpecRange : Nat
deriving DecidableEq, Repr

/-- One inheritance-list entry: the identifier texts of its
`typeName.items` path (`diagnostics.ts` lines 73-74). -/
structure InheritanceType where
  typeNameItems : List String
deriving DecidableEq, Repr

/-- One function definition as inspected by the upgradeability
classifier (`diagnostics.ts` lines 84-86): name text and the unparsed
type text of each parameter. -/
structure FunctionDefinitionModel where
  name : String
  parameterTypeTexts : List String
deriving DecidableEq, Repr

/-- Everything the engine reads off one contract definition: name,
optional inheritance list, function definitions in the subtree, the
text of the preceding NatSpec comment (if any), the validity flag of
the isolated contract re-parse (`diagnostics.ts` lines 40-43), struct
and state-variable data, and the contract-level diagnostic range
(identifier start to contract end, lines 104-105). -/
structure ContractInput where
  name : String
  inheritance? : Option (List InheritanceType)
  functions : List FunctionDefinitionModel
  natSpecText? : Option String
  parseValid : Bool
  structs : List StructInput
  stateVars : List StateVarInput
  contractRange : Nat
deriving DecidableEq, Repr

/-- Inheritance heuristic of `inferUpgradeable` (`diagnostics.ts` lines
73-77): some inheritance type has an identifier-path item exactly
`Initializable`, or some has one exactly `UUPSUpgradeable`. -/
def hasUpgradeableInheritance (c : ContractInput) : Bool :=
  let hasInitializable :=
    (c.inheritance?.getD []).any fun t => t.typeNameItems.any (fun item => item == "Initializable")
  let hasUUPSUpgradeable :=
    (c.inheritance?.getD []).any fun t => t.typeNameItems.any (fun item => item == "UUPSUpgradeable")
  hasInitializable || hasUUPSUpgradeable

/-- Function heuristic of `inferUpgradeable` (`diagnostics.ts` lines
79-89): some function in the subtree is named exactly
`_authorizeUpgrade`, has exactly one parameter, and the unparsed type
text of that parameter is exactly `address`. -/
def hasAuthorizeUpgradeFunction (c : ContractInput) : Bool :=
  c.functions.any fun f =>
    f.name == "_authorizeUpgrade"
      && f.parameterTypeTexts.length == 1
      && f.parameterTypeTexts.headD "" == "address"

/-- NatSpec heuristic of `inferUpgradeable` (`diagnostics.ts` lines
91-94): the preceding NatSpec text, split on whitespace, contains the
token `@custom:oz-upgrades` or `@custom:oz-upgrades-from`. -/
def hasUpgradeableNatSpec (c : ContractInput) : Bool :=
  match c.natSpecText? with
  | some t =>
    let natSpecTokens := t.split (fun ch => ch.isWhitespace)
    natSpecTokens.contains "@custom:oz-upgrades"
      || natSpecTokens.contains "@custom:oz-upgrades-from"
  | none => false

/-- Upgradeability classifier `inferUpgradeable` (`diagnostics.ts`
lines 72-97): the short-circuit OR of the three heuristics, in source
order. -/
def inferUpgradeable (c : ContractInput) : Bool :=
  if hasUpgradeableInheritance c then true
  else if hasAuthorizeUpgradeFunction c then true
  else hasUpgradeableNatSpec c

/-- Accumulator of the attribute loop at `diagnostics.ts` lines
136-154: the ignore flag, the running replacement text, the optional
public getter. -/
structure VarAttrResult where
  ignoreVariable : Bool
  replacement : String
  getter : Option PublicGetter
deriving DecidableEq, Repr

/-- One step of the attribute loop (`diagnostics.ts` lines 139-154):
`immutable`/`constant` set the ignore flag; any other attribute
rewrites the replacement to `<type> <name>;`, and `public`
additionally records a getter stub. -/
def attrStep (m : StateVarModel) (acc : VarAttrResult) (a : AttrKind) : VarAttrResult :=
  match a with
  | AttrKind.immutableKeyword => { acc with ignoreVariable := true }
  | AttrKind.constantKeyword => { acc with ignoreVariable := true }
  | AttrKind.publicKeyword =>
    { acc with
      replacement := m.typeNameText ++ " " ++ m.name ++ ";",
      getter := some { typeName := m.typeNameText } }
  | AttrKind.otherAttribute =>
    { acc with replacement := m.typeNameText ++ " " ++ m.name ++ ";" }

/-- The whole attribute loop of the variable classifier, starting from
the trimmed variable text as replacement. -/
def processAttributes (m : StateVarModel) (variableText : String) : VarAttrResult :=
  m.attributes.foldl (attrStep m)
    { ignoreVariable := false, replacement := variableText, getter := none }

/-- Per-variable body of `validateNamespaceableVariables`
(`diagnostics.ts` lines 126-186): returns the diagnostics emitted for
this variable and the optional collected namespaceable-variable
record. -/
def processVariable (skipDiagnostic : Bool) (v : StateVarInput) :
    List Diagnostic × Option NamespaceableVariable :=
  let r := processAttributes v.reparsed v.variableText
  if r.ignoreVariable then ([], none)
  else if v.reparsed.value?.isSome then
    ((if skipDiagnostic then [] else
      [{ range := v.trimmedRange,
         message := "Variable has initial value",
         explanation := "If this contract is an upgradeable contract, consider moving this variable to namespaced storage and setting it in an initializer.",
         severity := Severity.warning,
         code := VARIABLE_HAS_INITIAL_VALUE,
         payload := none }]), none)
  else
    ((if skipDiagnostic then [] else
      [{ range := v.trimmedRange,
         message := "Variable can be namespaced.",
         explanation := "If this contract is an upgradeable contract, consider moving this variable to namespaced storage.",
         severity := Severity.information,
         code := VARIABLE_CAN_BE_NAMESPACED,
         payload := none }]),
     some { content := r.replacement,
            name := v.reparsed.name,
            range := v.trimmedRange,
            publicGetter := r.getter })

/-- Variable classifier `validateNamespaceableVariables`
(`diagnostics.ts` lines 120-188): walks the state variables in
document order, accumulating diagnostics and the collected
namespaceable variables. -/
def validateNamespaceableVariables (skipDiagnostic : Bool) :
    List StateVarInput → List Diagnostic × List NamespaceableVariable
  | [] => ([], [])
  | v :: rest =>
    let r := processVariable skipDiagnostic v
    let tail := validateNamespaceableVariables skipDiagnostic rest
    (r.1 ++ tail.1, r.2.toList ++ tail.2)

/-- Contract-level diagnostic `validateNamespaceableContract`
(`diagnostics.ts` lines 99-118): emitted exactly when the collected
variable list is non-empty, with hint severity and the contract record
as payload. -/
def validateNamespaceableContract (contractRange : Nat) (nc : NamespaceableContract) :
    List Diagnostic :=
  if nc.vars.length > 0 then
    [{ range := contractRange,
       message := "Contract can be namespaced.",
       explanation := "If this contract is an upgradeable contract, consider moving its variables to namespaced storage.",
       severity := Severity.hint,
       code := CONTRACT_CAN_BE_NAMESPACED,
       payload := some (Payload.contractData nc) }]
  else []

/-- One found struct namespace record (`diagnostics.ts` lines
267-270): the annotated id and the NatSpec range. -/
structure NamespaceIdAndRange where
  namespaceId : String
  textRange : Nat
deriving DecidableEq, Repr

/-- Mismatch diagnostic emitted inside the struct loop
(`diagnostics.ts` lines 310-319). -/
def structMismatchDiag (expectedNamespaceId : String) (r : Nat) : Diagnostic :=
  { range := r,
    message := "Namespace id does not match contract name",
    explanation := "Namepace id does not match the configured prefix and contract name",
    severity := Severity.information,
    code := NAMESPACE_ID_MISMATCH,
    payload := some (Payload.replacement
      ("/// @custom:storage-location erc7201:" ++ expectedNamespaceId)) }

/-- Struct loop of the namespace struct validator (`diagnostics.ts`
lines 283-323): for each struct whose preceding NatSpec matched the
storage-location regex, record the id and range, and emit a mismatch
diagnostic when the id differs from the expected id. Returns the
diagnostics and the `foundNamespaceIds` list, both in document order. -/
def structLoop (expectedNamespaceId : String) :
    List StructInput → List Diagnostic × List NamespaceIdAndRange
  | [] => ([], [])
  | s :: rest =>
    let tail := structLoop expectedNamespaceId rest
    match s.matchedId? with
    | some id =>
      ((if id != expectedNamespaceId then
          [structMismatchDiag expectedNamespaceId s.natSpecRange] else []) ++ tail.1,
       { namespaceId := id, textRange := s.natSpecRange } :: tail.2)
    | none => tail

/-- Duplicate filter of `diagnostics.ts` line 326: keeps exactly the
occurrences whose index differs from the first index holding the same
namespace id (i.e. every occurrence after the first of each id). -/
def duplicateNamespaceIds (found : List NamespaceIdAndRange) : List NamespaceIdAndRange :=
  ((found.enum.filter fun p =>
      found.findIdx (fun t => t.namespaceId == p.2.namespaceId) != p.1).map fun p => p.2)

/-- Duplicate-namespace error diagnostic (`diagnostics.ts` lines
330-339). -/
def duplicateDiag (r : Nat) : Diagnostic :=
  { range := r,
    message := "Duplicate namespaces",
    explanation := "Namespace ids must be unique",
    severity := Severity.error,
    code := DUPLICATE_NAMESPACE_ID,
    payload := none }

/-- Multiple-namespaces warning diagnostic (`diagnostics.ts` lines
343-353). -/
def multipleDiag (r : Nat) : Diagnostic :=
  { range := r,
    message := "Multiple namespaces",
    explanation := "Only one namespace per contract is recommended",
    severity := Severity.warning,
    code := MULTIPLE_NAMESPACES,
    payload := none }

/-- Struct namespace validator (`diagnostics.ts` lines 280-359; the
source name of this function ends in the NatSpec-tag word and is
shortened here): runs the struct loop, then the duplicate/multiplicity
logic, and returns the single found id and range exactly when one
annotated struct was found. -/
def validateNamespaceStructAnnot (expectedNamespaceId : String) (structs : List StructInput) :
    List Diagnostic × Option NamespaceIdAndRange :=
  let loop := structLoop expectedNamespaceId structs
  let foundNamespaceIds := loop.2
  let diags :=
    if foundNamespaceIds.length > 1 then
      let dups := duplicateNamespaceIds foundNamespaceIds
      if dups.length > 0 then
        loop.1 ++ dups.map (fun n => duplicateDiag n.textRange)
      else
        loop.1 ++ foundNamespaceIds.map (fun n => multipleDiag n.textRange)
    else loop.1
  (diags, if foundNamespaceIds.length == 1 then foundNamespaceIds.head? else none)

/-- Substring test with the semantics of the JavaScript
`String.prototype.includes` used at `diagnostics.ts` lines 236 and
249, computed on the character lists. -/
def charIncludes (target : List Char) : List Char → Bool
  | [] => target.isEmpty
  | c :: rest => target.isPrefixOf (c :: rest) || charIncludes target rest

/-- Substring test on strings: `strIncludes s target` is true exactly
when `target` occurs contiguously inside `s`. -/
def strIncludes (s target : String) : Bool :=
  charIncludes target.toList s.toList

/-- Suffix test on strings, computed on the character lists. -/
def strEndsWith (s post : String) : Bool :=
  post.toList.isSuffixOf s.toList

/-- True exactly when the state-variable name matches the anchored
regexes of `diagnostics.ts` line 227: it ends in `_STORAGE_LOCATION`
or in `StorageLocation`. -/
def nameIsStorageLocationConstant (name : String) : Bool :=
  strEndsWith name "_STORAGE_LOCATION" || strEndsWith name "StorageLocation"

/-- Comment-id mismatch warning (`diagnostics.ts` lines 208-217). -/
def commentMismatchDiag (expectedNamespaceId : String) (r : Nat) : Diagnostic :=
  { range := r,
    message := "Comment does not match namespace id",
    explanation := "Expected namespace id `" ++ expectedNamespaceId ++ "`",
    severity := Severity.warning,
    code := NAMESPACE_ID_MISMATCH_HASH_COMMENT,
    payload := some (Payload.replacement
      ("// keccak256(abi.encode(uint256(keccak256(\"" ++ expectedNamespaceId
        ++ "\")) - 1)) & ~bytes32(uint256(0xff))")) }

/-- Hash-vs-comment warning (`diagnostics.ts` lines 237-246). -/
def hashMismatchDiag (r : Nat) (expectedHashFromComment : String) : Diagnostic :=
  { range := r,
    message := "ERC7201 storage location hash does not match comment",
    explanation := "Hash does not match formula in comment",
    severity := Severity.warning,
    code := NAMESPACE_HASH_MISMATCH,
    payload := some (Payload.replacement expectedHashFromComment) }

/-- Standalone hash warning (`diagnostics.ts` lines 250-259). -/
def standaloneMismatchDiag (r : Nat) (expectedNamespaceId expectedHashFromNamespace : String) :
    Diagnostic :=
  { range := r,
    message := "ERC7201 storage location hash does not match expected namespace id",
    explanation := "Expected hash to be based on `" ++ expectedNamespaceId ++ "`",
    severity := Severity.warning,
    code := NAMESPACE_STANDALONE_HASH_MISMATCH,
    payload := some (Payload.replacement expectedHashFromNamespace) }

/-- Per-variable body of the hash validator loop (`diagnostics.ts`
lines 192-262). The comment step (lines 193-222) runs for every state
variable; the initializer checks (lines 227-261) only for variables
whose name matches the storage-location suffixes and, in this model,
only when the variable has an initializer expression (when the located
constant has no initializer the cursor-based forward search of lines
228-229 is not modelled and the variable contributes only its comment
diagnostics). The collaborator `calculateERC7201StorageLocation` from
`namespace.ts` is the parameter `hash`. -/
def hashCheckVar (hash : String → String) (expectedNamespaceId : String) (v : StateVarInput) :
    List Diagnostic :=
  let expectedHashFromComment : Option String :=
    v.formulaComment?.map fun m => hash m.capturedId
  let commentHasUnexpectedNamespace : Bool :=
    match v.formulaComment? with
    | some m => m.capturedId != expectedNamespaceId
    | none => false
  let commentDiags : List Diagnostic :=
    match v.formulaComment? with
    | some m =>
      if m.capturedId != expectedNamespaceId then
        [commentMismatchDiag expectedNamespaceId m.commentRange]
      else []
    | none => []
  let valueDiags : List Diagnostic :=
    if nameIsStorageLocationConstant v.name then
      match v.valueExprText? with
      | some text =>
        let expectedHashFromNamespace := hash expectedNamespaceId
        (match expectedHashFromComment with
         | some hc =>
           if !(strIncludes text hc) then [hashMismatchDiag v.valueExprRange hc] else []
         | none => [])
          ++ (if !commentHasUnexpectedNamespace
                && !(expectedHashFromComment == some expectedHashFromNamespace)
                && !(strIncludes text expectedHashFromNamespace) then
                [standaloneMismatchDiag v.valueExprRange expectedNamespaceId
                  expectedHashFromNamespace]
              else [])
      | none => []
    else []
  commentDiags ++ valueDiags

/-- Hash validator `validateNamespaceCommentAndHash` (`diagnostics.ts`
lines 190-265): loops over the state variables of the contract in document
order. Its `expectedNamespaceId` argument is the id found by the
struct validator (`diagnostics.ts` line 57). -/
def validateNamespaceCommentAndHash (hash : String → String) (expectedNamespaceId : String) :
    List StateVarInput → List Diagnostic
  | [] => []
  | v :: rest =>
    hashCheckVar hash expectedNamespaceId v
      ++ validateNamespaceCommentAndHash hash expectedNamespaceId rest

/-- Per-contract body of the engine loop (`diagnostics.ts` lines
35-61): skip contracts whose isolated re-parse is invalid; classify
upgradeability; only for upgradeable contracts run the struct
validator and, when it returns a single id, the hash validator; then
run the variable classifier (diagnostics suppressed for
non-upgradeable contracts) and the contract-level diagnostic. The
collaborator `expectedIdOf` combines the settings lookup
`getNamespacePrefix` with `getNamespaceId` from `namespace.ts`
applied to the contract name (lines 28-30, 307-308). -/
def processContract (hash : String → String) (expectedIdOf : String → String)
    (c : ContractInput) : List Diagnostic :=
  if !c.parseValid then []
  else
    let inferredUpgradeable := inferUpgradeable c
    let annotDiags :=
      if inferredUpgradeable then
        let r := validateNamespaceStructAnnot (expectedIdOf c.name) c.structs
        r.1 ++ (match r.2 with
          | some found => validateNamespaceCommentAndHash hash found.namespaceId c.stateVars
          | none => [])
      else []
    let varsR := validateNamespaceableVariables (!inferredUpgradeable) c.stateVars
    let nc : NamespaceableContract := { name := c.name, vars := varsR.2 }
    annotDiags ++ varsR.1 ++ validateNamespaceableContract c.contractRange nc

/-- Engine entry point `validateNamespaces` (`diagnostics.ts` lines
32-63): processes every contract definition in document order,
appending diagnostics. -/
def validateNamespaces (hash : String → String) (expectedIdOf : String → String) :
    List ContractInput → List Diagnostic
  | [] => []
  | c :: rest =>
    processContract hash expectedIdOf c ++ validateNamespaces hash expectedIdOf rest

/-- Per-expression maximum of `semver.maxSatisfying` as used at
`helpers/slang.ts` line 163: the greatest supported version satisfying
the constraint, or none. Versions are modelled as naturals ordered as
the semver order on the release versions returned by
`Language.supportedVersions()`. -/
def maxSatisfying (versions : List Nat) (constraint : Nat → Bool) : Option Nat :=
  (versions.filter constraint).maximum

/-- Version inference helper `getHighestSupportedPragmaVersion`
(`helpers/slang.ts` lines 137-173): for each version-expression set
found by the query and each constraint expression inside it, collect
the maximum supported version satisfying it (skipping unsatisfiable
expressions, line 164-168), then return the maximum of the collected
list (the final `semver.maxSatisfying(..., "*")`, which on the
collected release versions is their maximum, or none on the empty
list). -/
def getHighestSupportedPragmaVersion (supported : List Nat)
    (sets : List (List (Nat → Bool))) : Option Nat :=
  let possibleHighestVersions :=
    (sets.flatten).filterMap fun versionExpression => maxSatisfying supported versionExpression
  maxSatisfying possibleHighestVersions (fun _ => true)

/-- Attribute is the `immutable` or the `constant` keyword — the
condition of `diagnostics.ts` line 140. -/
def isConstOrImmutable : AttrKind → Bool
  | AttrKind.immutableKeyword => true
  | AttrKind.constantKeyword => true
  | AttrKind.publicKeyword => false
  | AttrKind.otherAttribute => false

/-- The ignore flag after the attribute loop is set exactly when the
initial flag was set or some attribute is `immutable` or `constant`. -/
theorem foldl_attrStep_ignore (m : StateVarModel) :
    ∀ (l : List AttrKind) (acc : VarAttrResult),
      (l.foldl (attrStep m) acc).ignoreVariable
        = (acc.ignoreVariable || l.any isConstOrImmutable)
  | [], acc => by simp
  | a :: l, acc => by
    rw [List.foldl_cons, foldl_attrStep_ignore m l]
    cases a <;> simp [attrStep, isConstOrImmutable, Bool.or_assoc, beq_iff_eq]

/-- The ignore flag of the variable classifier is exactly the presence
of an `immutable` or `constant` attribute. -/
theorem processAttributes_ignore (m : StateVarModel) (t : String) :
    (processAttributes m t).ignoreVariable = m.attributes.any isConstOrImmutable := by
  rw [processAttributes, foldl_attrStep_ignore]
  simp

/-- A string list has length one with head `address` exactly when it is
the singleton `address` list. -/
theorem singleton_address_iff (l : List String) :
    ((l.length == 1 && l.headD "" == "address") = true) ↔ l = ["address"] := by
  match l with
  | [] => simp
  | [a] => simp [List.headD]
  | a :: b :: t => simp [List.length_cons]

/-- C7: for every contract not satisfying the inheritance or the
NatSpec heuristic, the upgradeability classifier returns true exactly
when the contract defines a function literally named
`_authorizeUpgrade` with exactly one parameter whose type text is
exactly `address`; in particular any other parameter type text
(including `address payable`) makes the classification false. -/
theorem C7_authorize_upgrade_iff (c : ContractInput)
    (h1 : hasUpgradeableInheritance c = false)
    (h3 : hasUpgradeableNatSpec c = false) :
    inferUpgradeable c = true
      ↔ ∃ f ∈ c.functions, f.name = "_authorizeUpgrade" ∧ f.parameterTypeTexts = ["address"] := by
  have he : inferUpgradeable c = hasAuthorizeUpgradeFunction c := by
    rw [inferUpgradeable, h1]
    cases hA : hasAuthorizeUpgradeFunction c <;> simp [hA, h3]
  rw [he, hasAuthorizeUpgradeFunction, List.any_eq_true]
  constructor
  · rintro ⟨f, hf, hp⟩
    rw [Bool.and_eq_true, Bool.and_eq_true] at hp
    exact ⟨f, hf, beq_iff_eq.mp hp.1.1, (singleton_address_iff _).mp (by
      rw [Bool.and_eq_true]
      exact ⟨hp.1.2, hp.2⟩)⟩
  · rintro ⟨f, hf, hn, ht⟩
    refine ⟨f, hf, ?_⟩
    rw [Bool.and_eq_true, Bool.and_eq_true]
    have hs := (singleton_address_iff f.parameterTypeTexts).mpr ht
    rw [Bool.and_eq_true] at hs
    exact ⟨⟨beq_iff_eq.mpr hn, hs.1⟩, hs.2⟩

/-- Witness contract for C7: no inheritance, no NatSpec, a single
`_authorizeUpgrade(address)` function. -/
def c7WitnessContract : ContractInput :=
  { name := "Proxy",
    inheritance? := none,
    functions := [{ name := "_authorizeUpgrade", parameterTypeTexts := ["address"] }],
    natSpecText? := none,
    parseValid := true,
    structs := [],
    stateVars := [],
    contractRange := 0 }

/-- Witness for C7 at a concrete contract. -/
theorem C7_authorize_upgrade_iff_witness :
    hasUpgradeableInheritance c7WitnessContract = false
      ∧ hasUpgradeableNatSpec c7WitnessContract = false
      ∧ inferUpgradeable c7WitnessContract = true :=
  ⟨rfl, rfl,
    (C7_authorize_upgrade_iff c7WitnessContract rfl rfl).mpr
      ⟨{ name := "_authorizeUpgrade", parameterTypeTexts := ["address"] },
        List.mem_singleton.mpr rfl, rfl, rfl⟩⟩

/-- C8: a state variable whose attribute list contains `immutable` or
`constant` is excluded entirely by the variable classifier — it
contributes neither a diagnostic nor an entry to the
namespaceable-variable list, regardless of the other attributes, of an
initializer, and of the suppression flag. -/
theorem C8_constant_immutable_excluded (skipDiagnostic : Bool) (v : StateVarInput)
    (rest : List StateVarInput)
    (h : AttrKind.immutableKeyword ∈ v.reparsed.attributes
          ∨ AttrKind.constantKeyword ∈ v.reparsed.attributes) :
    validateNamespaceableVariables skipDiagnostic (v :: rest)
      = validateNamespaceableVariables skipDiagnostic rest := by
  have hig : (processAttributes v.reparsed v.variableText).ignoreVariable = true := by
    rw [processAttributes_ignore, List.any_eq_true]
    rcases h with h | h
    · exact ⟨AttrKind.immutableKeyword, h, rfl⟩
    · exact ⟨AttrKind.constantKeyword, h, rfl⟩
  have hp : processVariable skipDiagnostic v = ([], none) := by
    rw [processVariable, hig]
    simp
  rw [validateNamespaceableVariables, hp]
  simp

/-- Witness variable for C8: `constant` attribute together with an
initializer. -/
def c8WitnessVar : StateVarInput :=
  { formulaComment? := none,
    name := "MAX",
    valueExprText? := some "100",
    valueExprRange := 4,
    trimmedRange := 4,
    variableText := "uint256 public constant MAX = 100;",
    reparseValid := true,
    reparsed := { attributes := [AttrKind.publicKeyword, AttrKind.constantKeyword],
                  typeNameText := "uint256",
                  name := "MAX",
                  value? := some "100" } }

/-- Witness for C8: the constant-with-initializer variable yields no
diagnostic and no collected variable even with suppression off. -/
theorem C8_constant_immutable_excluded_witness :
    AttrKind.constantKeyword ∈ c8WitnessVar.reparsed.attributes
      ∧ validateNamespaceableVariables false [c8WitnessVar] = ([], []) :=
  ⟨by decide,
    (C8_constant_immutable_excluded false c8WitnessVar [] (Or.inr (by decide))).trans rfl⟩

/-- Concrete stand-in for the ERC-7201 slot-hash collaborator in the C1
counterexample: distinct ids get distinct hash texts, as keccak does on
these inputs. -/
def c1Hash : String → String := fun id => "0xhash." ++ id

/-- Counterexample variable for C1: storage-location name, preceding
formula comment capturing an id different from the expected one, and an
initializer containing neither hash. -/
def c1Var : StateVarInput :=
  { formulaComment? := some { capturedId := "wrong.id", commentRange := 0 },
    name := "BOX_STORAGE_LOCATION",
    valueExprText? := some "0x1234",
    valueExprRange := 1,
    trimmedRange := 2,
    variableText := "bytes32 private constant BOX_STORAGE_LOCATION = 0x1234;",
    reparseValid := true,
    reparsed := { attributes := [AttrKind.constantKeyword],
                  typeNameText := "bytes32",
                  name := "BOX_STORAGE_LOCATION",
                  value? := some "0x1234" } }

/-- C1 counterexample: under exactly the premises of the claim (comment
id differs from the expected id, initializer text contains neither
hash, storage-location name), the hash validator emits
`NamespaceHashMismatch` but not `NamespaceStandaloneHashMismatch` — the
comment-id mismatch flag suppresses the standalone check
(`diagnostics.ts` line 249), so the two warnings of the claim never
fire together. -/
theorem C1_counterexample :
    c1Var.formulaComment? = some { capturedId := "wrong.id", commentRange := 0 }
      ∧ ("wrong.id" == "good.id") = false
      ∧ nameIsStorageLocationConstant c1Var.name = true
      ∧ strIncludes "0x1234" (c1Hash "wrong.id") = false
      ∧ strIncludes "0x1234" (c1Hash "good.id") = false
      ∧ (validateNamespaceCommentAndHash c1Hash "good.id" [c1Var]).map (fun d => d.code)
          = [NAMESPACE_ID_MISMATCH_HASH_COMMENT, NAMESPACE_HASH_MISMATCH] :=
  ⟨rfl, rfl, by decide, rfl, rfl, by decide⟩

/-- C1 amended: for a storage-location variable whose preceding formula
comment captures an id different from the expected namespace id and
whose initializer text contains neither the comment-derived hash nor
the expected-id hash, the hash validator emits exactly the comment-id
warning and the `NamespaceHashMismatch` warning; the
`NamespaceStandaloneHashMismatch` warning is suppressed by the
comment-id mismatch. -/
theorem C1_amended (hash : String → String) (expectedNamespaceId text : String)
    (v : StateVarInput) (m : FormulaCommentMatch)
    (hc : v.formulaComment? = some m)
    (hne : (m.capturedId == expectedNamespaceId) = false)
    (hname : nameIsStorageLocationConstant v.name = true)
    (htext : v.valueExprText? = some text)
    (h1 : strIncludes text (hash m.capturedId) = false)
    (h2 : strIncludes text (hash expectedNamespaceId) = false) :
    validateNamespaceCommentAndHash hash expectedNamespaceId [v]
      = [commentMismatchDiag expectedNamespaceId m.commentRange,
         hashMismatchDiag v.valueExprRange (hash m.capturedId)] := by
  rw [validateNamespaceCommentAndHash, validateNamespaceCommentAndHash, hashCheckVar, hc]
  simp [hne, hname, htext, h1, h2, bne]

/-- Witness for the amended C1 at the concrete counterexample input. -/
theorem C1_amended_witness :
    validateNamespaceCommentAndHash c1Hash "good.id" [c1Var]
      = [commentMismatchDiag "good.id" 0, hashMismatchDiag 1 (c1Hash "wrong.id")] :=
  C1_amended c1Hash "good.id" "0x1234" c1Var { capturedId := "wrong.id", commentRange := 0 }
    rfl rfl (by decide) rfl rfl rfl

/-- Concrete stand-in hash for the C6 counterexample. -/
def c6Hash : String → String := fun id => "0xslot." ++ id

/-- Counterexample variable for C6: an ordinary state variable (name
does not end in the storage-location suffixes) preceded by a formula
comment whose captured id differs from the expected id. -/
def c6Var : StateVarInput :=
  { formulaComment? := some { capturedId := "other.ns", commentRange := 7 },
    name := "totalSupply",
    valueExprText? := some "0",
    valueExprRange := 8,
    trimmedRange := 8,
    variableText := "uint256 totalSupply = 0;",
    reparseValid := true,
    reparsed := { attributes := [],
                  typeNameText := "uint256",
                  name := "totalSupply",
                  value? := some "0" } }

/-- C6 counterexample: a formula comment preceding a variable whose
name does not match the storage-location suffixes still yields the
`NamespaceIdMismatchHashComment` warning — the comment check of
`diagnostics.ts` lines 193-222 runs for every state variable, before
the name test at line 227. -/
theorem C6_counterexample :
    nameIsStorageLocationConstant c6Var.name = false
      ∧ (validateNamespaceCommentAndHash c6Hash "main.ns" [c6Var]).map (fun d => d.code)
          = [NAMESPACE_ID_MISMATCH_HASH_COMMENT] :=
  ⟨rfl, rfl⟩

/-- C6 amended: the formula-comment check runs for every state variable
of the contract; for any variable whose preceding plain comment matches
the formula with an id different from the expected namespace id, the
`NamespaceIdMismatchHashComment` warning is emitted regardless of the
name of the variable, and when the name does not match the storage-location
suffixes that warning is the only diagnostic of the variable. -/
theorem C6_amended (hash : String → String) (expectedNamespaceId : String)
    (v : StateVarInput) (m : FormulaCommentMatch)
    (hc : v.formulaComment? = some m)
    (hne : (m.capturedId == expectedNamespaceId) = false)
    (hname : nameIsStorageLocationConstant v.name = false) :
    validateNamespaceCommentAndHash hash expectedNamespaceId [v]
      = [commentMismatchDiag expectedNamespaceId m.commentRange] := by
  rw [validateNamespaceCommentAndHash, validateNamespaceCommentAndHash, hashCheckVar, hc]
  simp [hne, hname, bne]

/-- Witness for the amended C6 at the concrete counterexample input. -/
theorem C6_amended_witness :
    validateNamespaceCommentAndHash c6Hash "main.ns" [c6Var]
      = [commentMismatchDiag "main.ns" 7] :=
  C6_amended c6Hash "main.ns" c6Var { capturedId := "other.ns", commentRange := 7 } rfl rfl rfl

/-- Counterexample structs for C2: exactly two struct annotations
carrying the identical namespace id, which also equals the expected id
so that only duplicate logic can fire. -/
def c2Structs : List StructInput :=
  [{ matchedId? := some "dup.id", natSpecRange := 10 },
   { matchedId? := some "dup.id", natSpecRange := 20 }]

/-- C2 counterexample: with exactly two annotations carrying the same
id, the duplicate filter of `diagnostics.ts` line 326 keeps only the
occurrence whose index differs from the first index of that id, so one
single `DuplicateNamespaceId` diagnostic is emitted, at the range of the
second occurrence — not one at each of the two ranges. -/
theorem C2_counterexample :
    c2Structs.map (fun s => s.matchedId?) = [some "dup.id", some "dup.id"]
      ∧ (validateNamespaceStructAnnot "dup.id" c2Structs).1 = [duplicateDiag 20] :=
  ⟨rfl, by decide⟩

/-- C2 amended: for a contract with exactly two struct annotations
carrying the identical namespace id, exactly one `DuplicateNamespaceId`
error diagnostic is emitted, at the range of the second occurrence (the
first occurrence of each id is never flagged). -/
theorem C2_amended (e id : String) (r1 r2 : Nat) :
    ((validateNamespaceStructAnnot e
        [{ matchedId? := some id, natSpecRange := r1 },
         { matchedId? := some id, natSpecRange := r2 }]).1.filter
      (fun d => d.code == DUPLICATE_NAMESPACE_ID)).map (fun d => d.range) = [r2] := by
  have hcode : (NAMESPACE_ID_MISMATCH == DUPLICATE_NAMESPACE_ID) = false := by decide
  cases hb : (id != e) <;>
    simp [validateNamespaceStructAnnot, structLoop, duplicateNamespaceIds, hb,
      List.enum_cons, List.findIdx_cons, structMismatchDiag, duplicateDiag, hcode,
      NAMESPACE_ID_MISMATCH, DUPLICATE_NAMESPACE_ID]

/-- Counterexample structs for C3: two struct annotations with the same
id, which differs from the expected id. -/
def c3Structs : List StructInput :=
  [{ matchedId? := some "same.id", natSpecRange := 1 },
   { matchedId? := some "same.id", natSpecRange := 2 }]

/-- C3 counterexample: duplicates exist among the struct annotations,
yet two `NamespaceIdMismatch` diagnostics are emitted alongside the
duplicate error — the per-annotation mismatch check of `diagnostics.ts`
lines 309-320 runs inside the struct loop, before duplicates are
computed, and is not suppressed. -/
theorem C3_counterexample :
    (duplicateNamespaceIds (structLoop "expected.id" c3Structs).2).length = 1
      ∧ ((validateNamespaceStructAnnot "expected.id" c3Structs).1.filter
          (fun d => d.code == NAMESPACE_ID_MISMATCH)).length = 2
      ∧ ((validateNamespaceStructAnnot "expected.id" c3Structs).1.filter
          (fun d => d.code == DUPLICATE_NAMESPACE_ID)).length = 1 := by
  decide

/-- Every diagnostic emitted inside the struct loop carries the
`NamespaceIdMismatch` code. -/
theorem structLoop_code (e : String) :
    ∀ (ss : List StructInput), ∀ d ∈ (structLoop e ss).1, d.code = NAMESPACE_ID_MISMATCH
  | [], d, hd => by simp [structLoop] at hd
  | s :: rest, d, hd => by
    rw [structLoop] at hd
    cases hs : s.matchedId? with
    | none =>
      rw [hs] at hd
      exact structLoop_code e rest d hd
    | some id =>
      rw [hs] at hd
      rcases List.mem_append.mp hd with h | h
      · cases hb : (id != e) <;> rw [hb] at h <;> simp at h
        rw [h]
        rfl
      · exact structLoop_code e rest d h

/-- On a found-id list of length at most one the duplicate filter is
empty. -/
theorem dups_nil_of_short (found : List NamespaceIdAndRange) (h : found.length ≤ 1) :
    duplicateNamespaceIds found = [] := by
  match found with
  | [] => rfl
  | [x] =>
    simp [duplicateNamespaceIds, List.enum_cons, List.findIdx_cons]
  | a :: b :: t =>
    simp [List.length_cons] at h

/-- When duplicates exist the validator output is the loop diagnostics
followed by one duplicate error per non-first occurrence. -/
theorem annot_output_of_dups (e : String) (ss : List StructInput)
    (hd : duplicateNamespaceIds (structLoop e ss).2 ≠ []) :
    (validateNamespaceStructAnnot e ss).1
      = (structLoop e ss).1
        ++ (duplicateNamespaceIds (structLoop e ss).2).map (fun n => duplicateDiag n.textRange) := by
  have hlen : (structLoop e ss).2.length > 1 := by
    by_contra hle
    exact hd (dups_nil_of_short _ (Nat.le_of_not_lt hle))
  have hdlen : (duplicateNamespaceIds (structLoop e ss).2).length > 0 :=
    List.length_pos.mpr hd
  rw [validateNamespaceStructAnnot]
  simp only [if_pos hlen, if_pos hdlen]

/-- C3 amended: whenever duplicate ids exist among the struct
annotations of a contract, no `MultipleNamespaces` diagnostic is emitted and the
`DuplicateNamespaceId` errors land exactly on the non-first
occurrences; the `NamespaceIdMismatch` diagnostics, however, are not
suppressed — they are exactly the per-annotation mismatch diagnostics
of the struct loop. -/
theorem C3_amended (e : String) (ss : List StructInput)
    (hd : duplicateNamespaceIds (structLoop e ss).2 ≠ []) :
    ((validateNamespaceStructAnnot e ss).1.filter (fun d => d.code == MULTIPLE_NAMESPACES)) = []
      ∧ ((validateNamespaceStructAnnot e ss).1.filter
          (fun d => d.code == DUPLICATE_NAMESPACE_ID)).map (fun d => d.range)
          = (duplicateNamespaceIds (structLoop e ss).2).map (fun n => n.textRange)
      ∧ ((validateNamespaceStructAnnot e ss).1.filter (fun d => d.code == NAMESPACE_ID_MISMATCH))
          = (structLoop e ss).1 := by
  have hcodeMulti : (NAMESPACE_ID_MISMATCH == MULTIPLE_NAMESPACES) = false := by decide
  have hcodeDupMulti : (DUPLICATE_NAMESPACE_ID == MULTIPLE_NAMESPACES) = false := by decide
  have hcodeMismatchDup : (NAMESPACE_ID_MISMATCH == DUPLICATE_NAMESPACE_ID) = false := by decide
  have hcodeDupMismatch : (DUPLICATE_NAMESPACE_ID == NAMESPACE_ID_MISMATCH) = false := by decide
  rw [annot_output_of_dups e ss hd]
  refine ⟨?_, ?_, ?_⟩
  · rw [List.filter_append]
    rw [List.filter_eq_nil_iff.mpr fun d hdm => by
        rw [structLoop_code e ss d hdm, hcodeMulti]; exact Bool.false_ne_true]
    rw [List.filter_eq_nil_iff.mpr fun d hdm => by
        rcases List.mem_map.mp hdm with ⟨n, _, hn⟩
        rw [← hn]
        show ((duplicateDiag n.textRange).code == MULTIPLE_NAMESPACES) ≠ true
        rw [show (duplicateDiag n.textRange).code = DUPLICATE_NAMESPACE_ID from rfl, hcodeDupMulti]
        exact Bool.false_ne_true]
    rfl
  · rw [List.filter_append]
    rw [List.filter_eq_nil_iff.mpr fun d hdm => by
        rw [structLoop_code e ss d hdm, hcodeMismatchDup]; exact Bool.false_ne_true]
    rw [List.filter_eq_self.mpr fun d hdm => by
        rcases List.mem_map.mp hdm with ⟨n, _, hn⟩
        rw [← hn]
        show ((duplicateDiag n.textRange).code == DUPLICATE_NAMESPACE_ID) = true
        rfl]
    rw [List.nil_append, List.map_map]
    rfl
  · rw [List.filter_append]
    rw [List.filter_eq_self.mpr fun d hdm => by
        rw [structLoop_code e ss d hdm]; rfl]
    rw [List.filter_eq_nil_iff.mpr fun d hdm => by
        rcases List.mem_map.mp hdm with ⟨n, _, hn⟩
        rw [← hn]
        show ((duplicateDiag n.textRange).code == NAMESPACE_ID_MISMATCH) ≠ true
        rw [show (duplicateDiag n.textRange).code = DUPLICATE_NAMESPACE_ID from rfl, hcodeDupMismatch]
        exact Bool.false_ne_true]
    rw [List.append_nil]

/-- Witness for the amended C3 at the concrete counterexample input. -/
theorem C3_amended_witness :
    ((validateNamespaceStructAnnot "expected.id" c3Structs).1.filter
        (fun d => d.code == MULTIPLE_NAMESPACES)) = []
      ∧ ((validateNamespaceStructAnnot "expected.id" c3Structs).1.filter
          (fun d => d.code == DUPLICATE_NAMESPACE_ID)).map (fun d => d.range)
          = (duplicateNamespaceIds (structLoop "expected.id" c3Structs).2).map
              (fun n => n.textRange)
      ∧ ((validateNamespaceStructAnnot "expected.id" c3Structs).1.filter
          (fun d => d.code == NAMESPACE_ID_MISMATCH)) = (structLoop "expected.id" c3Structs).1 :=
  C3_amended "expected.id" c3Structs (by decide)

/-- Concrete stand-in hash for the C4 counterexample. -/
def c4Hash : String → String := fun id => "0xloc." ++ id

/-- Concrete expected-id derivation for the C4 counterexample. -/
def c4ExpectedIdOf : String → String := fun n => "app.storage." ++ n

/-- Counterexample contract for C4: parses, is not classified
upgradeable, and carries one struct annotation whose id differs from
the canonical expected id. -/
def c4Contract : ContractInput :=
  { name := "Box",
    inheritance? := none,
    functions := [],
    natSpecText? := none,
    parseValid := true,
    structs := [{ matchedId? := some "wrong.ns", natSpecRange := 5 }],
    stateVars := [],
    contractRange := 0 }

/-- C4 counterexample: for a contract the classifier deems not
upgradeable, the engine emits nothing at all even though running the
struct validator on the same contract would emit a mismatch diagnostic
— the annotation validator is gated on the upgradeability
classification (`diagnostics.ts` lines 54-59), contrary to the claim
that it runs irrespective of it. -/
theorem C4_counterexample :
    inferUpgradeable c4Contract = false
      ∧ validateNamespaces c4Hash c4ExpectedIdOf [c4Contract] = []
      ∧ (validateNamespaceStructAnnot (c4ExpectedIdOf c4Contract.name) c4Contract.structs).1.length
          = 1 := by
  decide

/-- The struct validator returns a single id exactly when its loop
collected exactly one annotated struct. -/
theorem found_single_iff (e : String) (ss : List StructInput) :
    (validateNamespaceStructAnnot e ss).2.isSome = true
      ↔ (structLoop e ss).2.length = 1 := by
  simp only [validateNamespaceStructAnnot]
  cases hb : ((structLoop e ss).2.length == 1) with
  | true =>
    have hl := beq_iff_eq.mp hb
    rcases List.length_eq_one.mp hl with ⟨x, hx⟩
    simp [hb, hx, hl]
  | false =>
    have hl : ¬(structLoop e ss).2.length = 1 := by
      intro h
      rw [beq_iff_eq.mpr h] at hb
      cases hb
    simp [hb, hl]

/-- C4 amended: for every contract whose isolated re-parse is valid,
the engine first classifies upgradeability; only for contracts
classified upgradeable does it run the struct validator and, exactly
when that validator found a single struct annotation (equivalently,
collected exactly one annotated id), the hash validator; for
non-upgradeable contracts both are skipped. The variable classifier
(with per-variable diagnostics suppressed exactly for non-upgradeable
contracts) and the contract-level diagnostic always run. -/
theorem C4_amended (hash expectedIdOf : String → String) (c : ContractInput)
    (hv : c.parseValid = true) :
    (validateNamespaces hash expectedIdOf [c]
      = (if inferUpgradeable c then
           (validateNamespaceStructAnnot (expectedIdOf c.name) c.structs).1
             ++ (match (validateNamespaceStructAnnot (expectedIdOf c.name) c.structs).2 with
                 | some found => validateNamespaceCommentAndHash hash found.namespaceId c.stateVars
                 | none => [])
         else [])
        ++ (validateNamespaceableVariables (!inferUpgradeable c) c.stateVars).1
        ++ validateNamespaceableContract c.contractRange
            { name := c.name,
              vars := (validateNamespaceableVariables (!inferUpgradeable c) c.stateVars).2 })
      ∧ ((validateNamespaceStructAnnot (expectedIdOf c.name) c.structs).2.isSome = true
          ↔ (structLoop (expectedIdOf c.name) c.structs).2.length = 1) := by
  constructor
  · rw [validateNamespaces, validateNamespaces, List.append_nil, processContract, hv]
    rfl
  · exact found_single_iff (expectedIdOf c.name) c.structs

/-- Witness contract for the amended C4: upgradeable through
inheritance, one annotated struct. -/
def c4WitnessContract : ContractInput :=
  { name := "Vault",
    inheritance? := some [{ typeNameItems := ["UUPSUpgradeable"] }],
    functions := [],
    natSpecText? := none,
    parseValid := true,
    structs := [{ matchedId? := some "app.storage.Vault", natSpecRange := 3 }],
    stateVars := [],
    contractRange := 2 }

/-- Witness for the amended C4 at a concrete upgradeable contract. -/
theorem C4_amended_witness :
    (validateNamespaces c4Hash c4ExpectedIdOf [c4WitnessContract]
      = (if inferUpgradeable c4WitnessContract then
           (validateNamespaceStructAnnot (c4ExpectedIdOf c4WitnessContract.name)
             c4WitnessContract.structs).1
             ++ (match (validateNamespaceStructAnnot (c4ExpectedIdOf c4WitnessContract.name)
                   c4WitnessContract.structs).2 with
                 | some found =>
                   validateNamespaceCommentAndHash c4Hash found.namespaceId
                     c4WitnessContract.stateVars
                 | none => [])
         else [])
        ++ (validateNamespaceableVariables (!inferUpgradeable c4WitnessContract)
              c4WitnessContract.stateVars).1
        ++ validateNamespaceableContract c4WitnessContract.contractRange
            { name := c4WitnessContract.name,
              vars := (validateNamespaceableVariables (!inferUpgradeable c4WitnessContract)
                        c4WitnessContract.stateVars).2 })
      ∧ ((validateNamespaceStructAnnot (c4ExpectedIdOf c4WitnessContract.name)
            c4WitnessContract.structs).2.isSome = true
          ↔ (structLoop (c4ExpectedIdOf c4WitnessContract.name)
              c4WitnessContract.structs).2.length = 1) :=
  C4_amended c4Hash c4ExpectedIdOf c4WitnessContract rfl

/-- Concrete stand-in hash for the C5 counterexample. -/
def c5Hash : String → String := fun id => "0xh." ++ id

/-- Concrete expected-id derivation for the C5 counterexample. -/
def c5ExpectedIdOf : String → String := fun n => "app.storage." ++ n

/-- Counterexample variable for C5: its isolated re-parse is invalid,
yet the engine processes the re-parse result anyway. -/
def c5Var : StateVarInput :=
  { formulaComment? := none,
    name := "x",
    valueExprText? := none,
    valueExprRange := 0,
    trimmedRange := 3,
    variableText := "uint256 x",
    reparseValid := false,
    reparsed := { attributes := [], typeNameText := "uint256", name := "x", value? := none } }

/-- Counterexample contract for C5: valid parse, upgradeable through
`Initializable`, one state variable whose isolated re-parse is
invalid. -/
def c5Contract : ContractInput :=
  { name := "Box2",
    inheritance? := some [{ typeNameItems := ["Initializable"] }],
    functions := [],
    natSpecText? := none,
    parseValid := true,
    structs := [],
    stateVars := [c5Var],
    contractRange := 9 }

/-- C5 counterexample: the engine emits a `VariableCanBeNamespaced`
diagnostic for a state variable whose isolated re-parse is invalid —
`diagnostics.ts` lines 131-133 never consult the validity of the
variable re-parse, so no variable-level skip exists, contrary to the
claim. (The contract-level skip of lines 40-46 does exist; see the
amended theorem.) -/
theorem C5_counterexample :
    c5Var.reparseValid = false
      ∧ ((validateNamespaces c5Hash c5ExpectedIdOf [c5Contract]).filter
          (fun d => d.code == VARIABLE_CAN_BE_NAMESPACED)).length = 1 := by
  decide

/-- C5 amended: a contract whose isolated re-parse is invalid is
skipped entirely — it contributes no diagnostic and processing
continues with the remaining contracts. State variables, by contrast,
are re-parsed without a validity check: an invalid variable re-parse
is still processed and may produce diagnostics. -/
theorem C5_amended (hash expectedIdOf : String → String) (c : ContractInput)
    (rest : List ContractInput) (h : c.parseValid = false) :
    validateNamespaces hash expectedIdOf (c :: rest)
      = validateNamespaces hash expectedIdOf rest := by
  rw [validateNamespaces, processContract, h]
  rfl

/-- Witness contract for the amended C5: fails the isolated re-parse. -/
def c5WitnessContract : ContractInput :=
  { name := "Broken",
    inheritance? := none,
    functions := [],
    natSpecText? := none,
    parseValid := false,
    structs := [{ matchedId? := some "app.storage.Broken", natSpecRange := 1 }],
    stateVars := [c5Var],
    contractRange := 0 }

/-- Witness for the amended C5: the invalid contract contributes no
diagnostics. -/
theorem C5_amended_witness :
    validateNamespaces c5Hash c5ExpectedIdOf [c5WitnessContract] = [] :=
  (C5_amended c5Hash c5ExpectedIdOf c5WitnessContract [] rfl).trans rfl

/-- Two natural-number lists have the same maximum when the first is
contained in the second and every element of the second is dominated by
one of the first. -/
theorem maximum_eq_of_mem_le (l1 l2 : List Nat)
    (hsub : ∀ a ∈ l1, a ∈ l2) (hdom : ∀ b ∈ l2, ∃ a ∈ l1, b ≤ a) :
    l1.maximum = l2.maximum := by
  cases h1 : l1.maximum with
  | bot =>
    cases h2 : l2.maximum with
    | bot => rfl
    | coe b =>
      have hb := List.maximum_mem h2
      rcases hdom b hb with ⟨a, ha, _⟩
      rw [List.maximum_eq_bot.mp h1] at ha
      cases ha
  | coe a =>
    have ha := List.maximum_mem h1
    cases h2 : l2.maximum with
    | bot =>
      rw [List.maximum_eq_bot.mp h2] at hsub
      cases hsub a ha
    | coe b =>
      have hab : a ≤ b := List.le_maximum_of_mem (hsub a ha) h2
      have hb := List.maximum_mem h2
      rcases hdom b hb with ⟨a2, ha2, hba2⟩
      have ha2a : a2 ≤ a := List.le_maximum_of_mem ha2 h1
      have hba : a = b := Nat.le_antisymm hab (Nat.le_trans hba2 ha2a)
      rw [hba]

/-- C9: the version inference helper returns the maximum, over all
supported versions, of the versions satisfying at least one constraint
expression of the document — equivalently the overall maximum of the
per-expression maxima — and returns none exactly when no constraint
expression exists or none is satisfiable by any supported version
(which makes the right-hand filter empty). -/
theorem C9_highest_pragma_version (supported : List Nat) (sets : List (List (Nat → Bool))) :
    getHighestSupportedPragmaVersion supported sets
      = (supported.filter fun v => (sets.flatten).any fun e => e v).maximum := by
  unfold getHighestSupportedPragmaVersion
  show maxSatisfying ((sets.flatten).filterMap fun e => maxSatisfying supported e) (fun _ => true)
      = _
  rw [maxSatisfying, List.filter_true]
  apply maximum_eq_of_mem_le
  · intro a ha
    rcases List.mem_filterMap.mp ha with ⟨e, he, hme⟩
    rw [maxSatisfying] at hme
    have hmem := List.maximum_mem hme
    rcases List.mem_filter.mp hmem with ⟨hsup, hsat⟩
    exact List.mem_filter.mpr ⟨hsup, List.any_eq_true.mpr ⟨e, he, hsat⟩⟩
  · intro b hb
    rcases List.mem_filter.mp hb with ⟨hsup, hany⟩
    rcases List.any_eq_true.mp hany with ⟨e, he, heb⟩
    have hbmem : b ∈ supported.filter e := List.mem_filter.mpr ⟨hsup, heb⟩
    cases hm : (supported.filter e).maximum with
    | bot =>
      rw [List.maximum_eq_bot.mp hm] at hbmem
      cases hbmem
    | coe m =>
      refine ⟨m, List.mem_filterMap.mpr ⟨e, he, ?_⟩, List.le_maximum_of_mem hbmem hm⟩
      rw [maxSatisfying]
      exact hm

/-- Specification-side predicate for C10: a state variable is collected
as namespaceable exactly when its re-parsed attribute list has no
`immutable` or `constant` keyword and it has no initializer. -/
def isCollectible (v : StateVarInput) : Bool :=
  !(v.reparsed.attributes.any isConstOrImmutable) && v.reparsed.value?.isNone

/-- The variable classifier collects a record for a variable exactly
when it is collectible. -/
theorem processVariable_isSome (skipDiagnostic : Bool) (v : StateVarInput) :
    (processVariable skipDiagnostic v).2.isSome = isCollectible v := by
  rw [processVariable, isCollectible]
  cases hig : (processAttributes v.reparsed v.variableText).ignoreVariable with
  | true =>
    rw [processAttributes_ignore] at hig
    simp [hig]
  | false =>
    rw [processAttributes_ignore] at hig
    cases hv : v.reparsed.value? <;> simp [hig, hv]

/-- With the suppression flag set the variable classifier emits no
diagnostics. -/
theorem varDiags_skip : ∀ (vs : List StateVarInput),
    (validateNamespaceableVariables true vs).1 = []
  | [] => rfl
  | v :: rest => by
    rw [validateNamespaceableVariables]
    have hp : (processVariable true v).1 = [] := by
      rw [processVariable]
      split
      · rfl
      · split <;> rfl
    rw [hp, varDiags_skip rest]
    rfl

/-- Every diagnostic of the variable classifier carries the
initial-value or the namespaceable-variable code. -/
theorem varDiags_code (skipDiagnostic : Bool) : ∀ (vs : List StateVarInput),
    ∀ d ∈ (validateNamespaceableVariables skipDiagnostic vs).1,
      d.code = VARIABLE_HAS_INITIAL_VALUE ∨ d.code = VARIABLE_CAN_BE_NAMESPACED
  | [], d, hd => by simp [validateNamespaceableVariables] at hd
  | v :: rest, d, hd => by
    rw [validateNamespaceableVariables] at hd
    rcases List.mem_append.mp hd with h | h
    · rw [processVariable] at h
      split at h
      · simp at h
      · split at h
        · simp at h
          rw [h.2]
          exact Or.inl rfl
        · simp at h
          rw [h.2]
          exact Or.inr rfl
    · exact varDiags_code skipDiagnostic rest d h

/-- The collected namespaceable-variable list is non-empty exactly when
some state variable is collectible. -/
theorem collected_any (skipDiagnostic : Bool) : ∀ (vs : List StateVarInput),
    ((validateNamespaceableVariables skipDiagnostic vs).2.length > 0
      ↔ vs.any isCollectible = true)
  | [] => by simp [validateNamespaceableVariables]
  | v :: rest => by
    rw [validateNamespaceableVariables, List.any_cons]
    cases hc : isCollectible v with
    | false =>
      have hs : (processVariable skipDiagnostic v).2.isSome = false := by
        rw [processVariable_isSome, hc]
      have h2 : (processVariable skipDiagnostic v).2 = none :=
        Option.not_isSome_iff_eq_none.mp (by rw [hs]; exact Bool.false_ne_true)
      simp only [h2, Option.toList_none, List.nil_append]
      rw [Bool.false_or]
      exact collected_any skipDiagnostic rest
    | true =>
      have hs : (processVariable skipDiagnostic v).2.isSome = true := by
        rw [processVariable_isSome, hc]
      rcases Option.isSome_iff_exists.mp hs with ⟨x, hx⟩
      simp [hx]

/-- Every diagnostic of the struct validator carries one of its three
codes. -/
theorem annot_code (e : String) (ss : List StructInput) :
    ∀ d ∈ (validateNamespaceStructAnnot e ss).1,
      d.code = NAMESPACE_ID_MISMATCH ∨ d.code = DUPLICATE_NAMESPACE_ID
        ∨ d.code = MULTIPLE_NAMESPACES := by
  intro d hd
  simp only [validateNamespaceStructAnnot] at hd
  split at hd
  · split at hd
    · rcases List.mem_append.mp hd with h | h
      · exact Or.inl (structLoop_code e ss d h)
      · rcases List.mem_map.mp h with ⟨n, _, hn⟩
        rw [← hn]
        exact Or.inr (Or.inl rfl)
    · rcases List.mem_append.mp hd with h | h
      · exact Or.inl (structLoop_code e ss d h)
      · rcases List.mem_map.mp h with ⟨n, _, hn⟩
        rw [← hn]
        exact Or.inr (Or.inr rfl)
  · exact Or.inl (structLoop_code e ss d hd)

/-- Every diagnostic of the per-variable hash check carries one of its
three codes. -/
theorem hashCheckVar_code (hash : String → String) (e : String) (v : StateVarInput) :
    ∀ d ∈ hashCheckVar hash e v,
      d.code = NAMESPACE_ID_MISMATCH_HASH_COMMENT ∨ d.code = NAMESPACE_HASH_MISMATCH
        ∨ d.code = NAMESPACE_STANDALONE_HASH_MISMATCH := by
  intro d hd
  simp only [hashCheckVar] at hd
  rcases List.mem_append.mp hd with h | h
  · split at h
    · split at h
      · simp at h
        rw [h]
        exact Or.inl rfl
      · simp at h
    · simp at h
  · split at h
    · split at h
      · rcases List.mem_append.mp h with h2 | h2
        · split at h2
          · split at h2
            · simp at h2
              rw [h2]
              exact Or.inr (Or.inl rfl)
            · simp at h2
          · simp at h2
        · split at h2
          · simp at h2
            rw [h2]
            exact Or.inr (Or.inr rfl)
          · simp at h2
      · simp at h
    · simp at h

/-- Every diagnostic of the hash validator carries one of its three
codes. -/
theorem hashDiags_code (hash : String → String) (e : String) : ∀ (vs : List StateVarInput),
    ∀ d ∈ validateNamespaceCommentAndHash hash e vs,
      d.code = NAMESPACE_ID_MISMATCH_HASH_COMMENT ∨ d.code = NAMESPACE_HASH_MISMATCH
        ∨ d.code = NAMESPACE_STANDALONE_HASH_MISMATCH
  | [], d, hd => by simp [validateNamespaceCommentAndHash] at hd
  | v :: rest, d, hd => by
    rw [validateNamespaceCommentAndHash] at hd
    rcases List.mem_append.mp hd with h | h
    · exact hashCheckVar_code hash e v d h
    · exact hashDiags_code hash e rest d h

/-- Decomposition of the per-contract processing for a contract whose
isolated re-parse is valid. -/
theorem processContract_valid (hash expectedIdOf : String → String) (c : ContractInput)
    (hv : c.parseValid = true) :
    processContract hash expectedIdOf c
      = (if inferUpgradeable c then
           (validateNamespaceStructAnnot (expectedIdOf c.name) c.structs).1
             ++ (match (validateNamespaceStructAnnot (expectedIdOf c.name) c.structs).2 with
                 | some found => validateNamespaceCommentAndHash hash found.namespaceId c.stateVars
                 | none => [])
         else [])
        ++ (validateNamespaceableVariables (!inferUpgradeable c) c.stateVars).1
        ++ validateNamespaceableContract c.contractRange
            { name := c.name,
              vars := (validateNamespaceableVariables (!inferUpgradeable c) c.stateVars).2 } := by
  rw [processContract, hv]
  rfl

/-- The annotation-and-hash part of the per-contract output never
carries the contract-level code. -/
theorem annotPart_countP_zero (hash expectedIdOf : String → String) (c : ContractInput) :
    ((if inferUpgradeable c then
        (validateNamespaceStructAnnot (expectedIdOf c.name) c.structs).1
          ++ (match (validateNamespaceStructAnnot (expectedIdOf c.name) c.structs).2 with
              | some found => validateNamespaceCommentAndHash hash found.namespaceId c.stateVars
              | none => [])
      else []).countP fun d => d.code == CONTRACT_CAN_BE_NAMESPACED) = 0 := by
  apply List.countP_eq_zero.mpr
  intro d hd
  split at hd
  · rcases List.mem_append.mp hd with h | h
    · rcases annot_code (expectedIdOf c.name) c.structs d h with h1 | h1 | h1 <;>
        rw [h1] <;> decide
    · split at h
      · rcases hashDiags_code hash _ c.stateVars d h with h1 | h1 | h1 <;>
          rw [h1] <;> decide
      · simp at h
  · simp at hd

/-- The variable-classifier part of the per-contract output never
carries the contract-level code. -/
theorem varPart_countP_zero (skipDiagnostic : Bool) (vs : List StateVarInput) :
    ((validateNamespaceableVariables skipDiagnostic vs).1.countP
      fun d => d.code == CONTRACT_CAN_BE_NAMESPACED) = 0 := by
  apply List.countP_eq_zero.mpr
  intro d hd
  rcases varDiags_code skipDiagnostic vs d hd with h1 | h1 <;> rw [h1] <;> decide

/-- The contract-level part contributes one contract-level diagnostic
exactly when the collected list is non-empty. -/
theorem contractPart_countP (r : Nat) (nc : NamespaceableContract) :
    ((validateNamespaceableContract r nc).countP
        fun d => d.code == CONTRACT_CAN_BE_NAMESPACED)
      = if nc.vars.length > 0 then 1 else 0 := by
  rw [validateNamespaceableContract]
  split <;> simp [List.countP_cons, List.countP_nil]

/-- C10: for every contract whose isolated re-parse is valid, exactly
one `ContractCanBeNamespaced` diagnostic is emitted when some state
variable has neither a `constant`/`immutable` attribute nor an
initializer and none otherwise; every such diagnostic has hint severity
and carries the collected contract record as payload; and for a
contract not classified upgradeable it is the only diagnostic that can
be emitted. -/
theorem C10_contract_can_be_namespaced (hash expectedIdOf : String → String) (c : ContractInput)
    (hv : c.parseValid = true) :
    ((validateNamespaces hash expectedIdOf [c]).countP
        (fun d => d.code == CONTRACT_CAN_BE_NAMESPACED)
      = if c.stateVars.any isCollectible then 1 else 0)
    ∧ (∀ d ∈ validateNamespaces hash expectedIdOf [c],
        d.code = CONTRACT_CAN_BE_NAMESPACED →
          d.severity = Severity.hint
            ∧ d.payload = some (Payload.contractData
                { name := c.name,
                  vars := (validateNamespaceableVariables (!inferUpgradeable c)
                            c.stateVars).2 }))
    ∧ (inferUpgradeable c = false →
        ∀ d ∈ validateNamespaces hash expectedIdOf [c],
          d.code = CONTRACT_CAN_BE_NAMESPACED) := by
  have hout : validateNamespaces hash expectedIdOf [c] = processContract hash expectedIdOf c := by
    rw [validateNamespaces, validateNamespaces, List.append_nil]
  rw [hout, processContract_valid hash expectedIdOf c hv]
  refine ⟨?_, ?_, ?_⟩
  · rw [List.countP_append, List.countP_append, annotPart_countP_zero hash expectedIdOf c,
      varPart_countP_zero, contractPart_countP]
    have hiff := collected_any (!inferUpgradeable c) c.stateVars
    cases hany : c.stateVars.any isCollectible with
    | false =>
      rw [if_neg (fun hpos => by
        rw [hiff.mp hpos] at hany
        cases hany)]
      simp [hany]
    | true =>
      rw [if_pos (hiff.mpr hany)]
      simp [hany]
  · intro d hd hcode
    rcases List.mem_append.mp hd with h | h
    · rcases List.mem_append.mp h with h2 | h2
      · -- annotation-and-hash part
        split at h2
        · rcases List.mem_append.mp h2 with h3 | h3
          · rcases annot_code (expectedIdOf c.name) c.structs d h3 with h1 | h1 | h1 <;>
              rw [h1] at hcode <;> exact absurd hcode (by decide)
          · split at h3
            · rcases hashDiags_code hash _ c.stateVars d h3 with h1 | h1 | h1 <;>
                rw [h1] at hcode <;> exact absurd hcode (by decide)
            · simp at h3
        · simp at h2
      · rcases varDiags_code (!inferUpgradeable c) c.stateVars d h2 with h1 | h1 <;>
          rw [h1] at hcode <;> exact absurd hcode (by decide)
    · rw [validateNamespaceableContract] at h
      split at h
      · simp at h
        rw [h]
        exact ⟨rfl, rfl⟩
      · simp at h
  · intro hupg d hd
    rw [hupg] at hd
    simp only [Bool.not_false, Bool.false_eq_true, if_false, List.nil_append] at hd
    rw [varDiags_skip c.stateVars] at hd
    simp only [List.nil_append] at hd
    rw [validateNamespaceableContract] at hd
    split at hd
    · simp at hd
      rw [hd]
    · simp at hd

/-- Witness contract for C10: valid parse, not upgradeable, one
collectible state variable. -/
def c10WitnessContract : ContractInput :=
  { name := "Token",
    inheritance? := none,
    functions := [],
    natSpecText? := none,
    parseValid := true,
    structs := [],
    stateVars :=
      [{ formulaComment? := none,
         name := "owner",
         valueExprText? := none,
         valueExprRange := 0,
         trimmedRange := 6,
         variableText := "address owner",
         reparseValid := true,
         reparsed := { attributes := [], typeNameText := "address",
                       name := "owner", value? := none } }],
    contractRange := 5 }

/-- Concrete stand-in hash for the C10 witness. -/
def c10Hash : String → String := fun id => "0xd." ++ id

/-- Concrete expected-id derivation for the C10 witness. -/
def c10ExpectedIdOf : String → String := fun n => "app.storage." ++ n

/-- Witness for C10 at a concrete contract. -/
theorem C10_contract_can_be_namespaced_witness :
    ((validateNamespaces c10Hash c10ExpectedIdOf [c10WitnessContract]).countP
        (fun d => d.code == CONTRACT_CAN_BE_NAMESPACED)
      = if c10WitnessContract.stateVars.any isCollectible then 1 else 0)
    ∧ (∀ d ∈ validateNamespaces c10Hash c10ExpectedIdOf [c10WitnessContract],
        d.code = CONTRACT_CAN_BE_NAMESPACED →
          d.severity = Severity.hint
            ∧ d.payload = some (Payload.contractData
                { name := c10WitnessContract.name,
                  vars := (validateNamespaceableVariables
                            (!inferUpgradeable c10WitnessContract)
                            c10WitnessContract.stateVars).2 }))
    ∧ (inferUpgradeable c10WitnessContract = false →
        ∀ d ∈ validateNamespaces c10Hash c10ExpectedIdOf [c10WitnessContract],
          d.code = CONTRACT_CAN_BE_NAMESPACED) :=
  C10_contract_can_be_namespaced c10Hash c10ExpectedIdOf c10WitnessContract rfl

end OZ
